import Mathlib

/-!
Shallow embedding of `src/sds011/__init__.py` (class `SDS011`), the driver for
the SDS011 particulate-matter sensor.

Modelling conventions:
* Bytes are `Nat` (Python byte values 0..255); byte strings are `List Nat`.
* The serial transport is modelled by the list of bytes it will deliver:
  `ser.read(size=n)` on a stream `s` returns `s.take n` (shorter on
  timeout/exhaustion, matching pyserial's timeout semantics) and leaves
  `s.drop n` for later reads.
* Python exceptions are modelled with `Except PyErr`; the driver methods that
  can raise return `Except PyErr α`.
* Python floats produced by `x / 10.0` are modelled as exact rationals
  `(x : ℚ) / 10`; every concrete value appearing in the claims (25.0, 45.0)
  is exactly representable, where IEEE double division coincides with the
  rational result.
* `sum(...) & 255` on non-negative Python ints equals `% 256`, which is how it
  is written here.
-/

/-- Kinds of Python exceptions the embedded code can raise. -/
inductive PyErr where
  | indexError
  | typeError
  | structError
  | assertionError
deriving DecidableEq

/-- `SDS011.HEAD = b'\xaa'`. -/
def HEAD : Nat := 0xAA

/-- `SDS011.TAIL = b'\xab'`. -/
def TAIL : Nat := 0xAB

/-- `SDS011.CMD_ID = b'\xb4'`. -/
def CMD_ID : Nat := 0xB4

/-- `SDS011.READ = b"\x00"`. -/
def READ : Nat := 0x00

/-- `SDS011.WRITE = b"\x01"`. -/
def WRITE : Nat := 0x01

/-- `SDS011.REPORT_MODE_CMD = b"\x02"`. -/
def REPORT_MODE_CMD : Nat := 0x02

/-- `SDS011.ACTIVE = b"\x00"`. -/
def ACTIVE : Nat := 0x00

/-- `SDS011.PASSIVE = b"\x01"`. -/
def PASSIVE : Nat := 0x01

/-- `SDS011.QUERY_CMD = b"\x04"`. -/
def QUERY_CMD : Nat := 0x04

/-- `SDS011.SLEEP_CMD = b"\x06"`. -/
def SLEEP_CMD : Nat := 0x06

/-- `SDS011.SLEEP = b"\x00"`. -/
def SLEEP_BYTE : Nat := 0x00

/-- `SDS011.WORK = b"\x01"`. -/
def WORK : Nat := 0x01

/-- `SDS011.WORK_PERIOD_CMD = b'\x08'`. -/
def WORK_PERIOD_CMD : Nat := 0x08

/-- `SDS011.FIRMWARE_VERSION_CMD = b'\x07'`. -/
def FIRMWARE_VERSION_CMD : Nat := 0x07

/-- `struct.unpack('B', b)`: requires exactly one byte, returns it;
raises `struct.error` otherwise. -/
def unpackB (b : List Nat) : Except PyErr Nat :=
  match b with
  | [x] => .ok x
  | _ => .error .structError

/-- `struct.unpack('<HH', b)`: requires exactly 4 bytes, returns two
little-endian unsigned 16-bit values; raises `struct.error` otherwise. -/
def unpackHH (b : List Nat) : Except PyErr (Nat × Nat) :=
  match b with
  | [a0, a1, a2, a3] => .ok (a0 + 256 * a1, a2 + 256 * a3)
  | _ => .error .structError

/-- `struct.unpack('<HHxxBBB', b)`: requires exactly 9 bytes, returns two
little-endian unsigned 16-bit values, skips two pad bytes, then three single
bytes; raises `struct.error` otherwise. -/
def unpackHHxxBBB (b : List Nat) : Except PyErr (Nat × Nat × Nat × Nat × Nat) :=
  match b with
  | [a0, a1, a2, a3, _, _, a6, a7, a8] =>
    .ok (a0 + 256 * a1, a2 + 256 * a3, a6, a7, a8)
  | _ => .error .structError

/-- `_get_reply(self)`:
```
raw = self.ser.read(size=10)
data = raw[2:8]
if len(data) == 0:
    return None
if (sum(d for d in data) & 255) != raw[8]:
    return None
return raw
```
`raw[8]` raises `IndexError` when `len(raw) <= 8`, which happens on a short
read of 3 to 8 bytes (with 0 to 2 bytes, `data` is empty and `None` is
returned first). The head byte of the reply is never examined. -/
def get_reply (stream : List Nat) : Except PyErr (Option (List Nat)) :=
  let raw := stream.take 10
  let data := (raw.drop 2).take 6
  if data.length = 0 then .ok none
  else
    match raw[8]? with
    | none => .error .indexError
    | some b8 => if data.sum % 256 ≠ b8 then .ok none else .ok (some raw)

/-- `cmd_begin(self)`: `return self.HEAD + self.CMD_ID`. -/
def cmd_begin : List Nat := [HEAD, CMD_ID]

/-- `_finish_cmd(self, cmd, id1=b"\xff", id2=b"\xff")` (always called with the
default device-id wildcard bytes):
```
cmd += id1 + id2
checksum = sum(d for d in cmd[2:]) % 256
cmd += bytes([checksum]) + self.TAIL
return cmd
``` -/
def finish_cmd (cmd : List Nat) : List Nat :=
  let cmd2 := cmd ++ [0xFF, 0xFF]
  let checksum := (cmd2.drop 2).sum % 256
  cmd2 ++ [checksum, TAIL]

/-- The generic command layout every method uses: `cmd_begin()` followed by
the command id byte and its 12 payload bytes, finished by `_finish_cmd`. -/
def build_cmd (cmd_id : Nat) (payload : List Nat) : List Nat :=
  finish_cmd (cmd_begin ++ cmd_id :: payload)

/-- The command buffer built by `set_report_mode( read, query)`:
`REPORT_MODE_CMD + (READ if read else WRITE) + (PASSIVE if query else ACTIVE)
+ b"\x00" * 10`, finished by `_finish_cmd`. -/
def set_report_mode_cmd ( read query : Bool) : List Nat :=
  build_cmd REPORT_MODE_CMD
    ((if read then READ else WRITE) :: (if query then PASSIVE else ACTIVE) ::
      List.replicate 10 0)

/-- `set_report_mode(self, read=False, query=True)`. Takes the previous value
of the cached field `self.use_query_mode` and the reply stream; returns the
Python return value paired with the new value of `self.use_query_mode`.
```
self.use_query_mode = query          # unconditional, first statement
...build and _execute the command...
raw = self._get_reply()
if raw is None:
    return None
data = struct.unpack('B', raw[4:5])
return data[0]
``` -/
def set_report_mode ( read query use_query_mode : Bool) (stream : List Nat) :
    Except PyErr (Option Nat) × Bool :=
  -- second component: the new `self.use_query_mode`, assigned `query`
  -- unconditionally by the first statement of the method
  (match get_reply stream with
   | .error e => .error e
   | .ok none => .ok none
   | .ok (some raw) =>
     match unpackB ((raw.drop 4).take 1) with
     | .error e => .error e
     | .ok b => .ok (some b),
   query)

/-- `query(self)`:
```
...build and _execute QUERY_CMD...
raw = self._get_reply()
if raw is None:
    ...advisory print when use_query_mode == 0...
    return None
data = struct.unpack('<HH', raw[2:6])
pm25 = data[0] / 10.0
pm10 = data[1] / 10.0
return (pm25, pm10)
```
The `use_query_mode` argument only controls the advisory print and does not
affect the returned value. -/
def query (use_query_mode : Bool) (stream : List Nat) :
    Except PyErr (Option (ℚ × ℚ)) :=
  match get_reply stream with
  | .error e => .error e
  | .ok none => .ok none
  | .ok (some raw) =>
    match unpackHH ((raw.drop 2).take 4) with
    | .error e => .error e
    | .ok (d0, d1) => .ok (some ((d0 : ℚ) / 10, (d1 : ℚ) / 10))

/-- `sleep(self, read=False, sleep=True)`:
```
...build and _execute SLEEP_CMD...
raw = self._get_reply()
if raw is None:
    return 0
data = struct.unpack('B', raw[4:5])  # 1=work, 0=sleep
return data[0]
``` -/
def sleep ( read slp : Bool) (stream : List Nat) : Except PyErr Nat :=
  match get_reply stream with
  | .error e => .error e
  | .ok none => .ok 0
  | .ok (some raw) =>
    match unpackB ((raw.drop 4).take 1) with
    | .error e => .error e
    | .ok b => .ok b

/-- The command buffer built by `set_work_period( read, work_time)` once the
assertion has passed: `WORK_PERIOD_CMD + (READ if read else WRITE) +
bytes([work_time]) + b"\x00" * 10`, finished by `_finish_cmd`. -/
def set_work_period_cmd ( read : Bool) (work_time : Int) : List Nat :=
  build_cmd WORK_PERIOD_CMD
    ((if read then READ else WRITE) :: work_time.toNat :: List.replicate 10 0)

/-- `set_work_period(self, read=False, work_time=0)`:
```
assert work_time >= 0 and work_time <= 30
...build and _execute the command...
self._get_reply()
```
The reply is read and discarded; the function returns `None` (modelled as
`Unit`). A failed assertion raises `AssertionError`. -/
def set_work_period ( read : Bool) (work_time : Int) (stream : List Nat) :
    Except PyErr Unit :=
  if ¬ (work_time ≥ 0 ∧ work_time ≤ 30) then .error .assertionError
  else
    match get_reply stream with
    | .error e => .error e
    | .ok _ => .ok ()

/-- `_process_frame(self, data)`:
```
raw = struct.unpack('<HHxxBBB', data[2:])   # raises when len(data) != 11
checksum = sum(v for v in data[2:8]) % 256
if checksum != data[8]:
    return None
pm25 = raw[0] / 10.0
pm10 = raw[1] / 10.0
return (pm25, pm10)
``` -/
def process_frame (data : List Nat) : Except PyErr (Option (ℚ × ℚ)) :=
  match unpackHHxxBBB (data.drop 2) with
  | .error e => .error e
  | .ok (r0, r1, _, _, _) =>
    let checksum := ((data.drop 2).take 6).sum % 256
    match data[8]? with
    | none => .error .indexError
    | some d8 =>
      if checksum ≠ d8 then .ok none
      else .ok (some ((r0 : ℚ) / 10, (r1 : ℚ) / 10))

/-- Result of one call of the scanning loop of `read`: either the Python
function returns (a value, with the unconsumed remainder of the stream), or
the loop never exits. -/
inductive ReadOutcome where
  | returned : Except PyErr (Option (ℚ × ℚ)) → List Nat → ReadOutcome
  | diverged : ReadOutcome

/-- The scanning loop of `read(self)`:
```
byte = 0
while byte != self.HEAD:
    byte = self.ser.read(size=1)
    d = self.ser.read(size=10)
    if d[0:1] == b"\xc0":
        data = self._process_frame(byte + d)
        ...advisory print...
        return data
```
Each iteration reads 1 byte and then, unconditionally, 10 more bytes (there
is no `if byte == self.HEAD` guard around the 10-byte read). If the first
byte of the candidate is `0xC0` the frame is processed and returned (even
when the scanned `byte` is not `0xAA`). Otherwise, if the scanned byte is
`0xAA`, the `while` condition fails and the function falls off the end,
returning `None`. Otherwise the loop repeats, having discarded 11 bytes.

On an exhausted/timed-out transport every read returns `b""`; then
`byte = b"" != b'\xaa'` and `d[0:1] = b"" != b"\xc0"`, so the loop repeats
forever with no progress: this is the `.diverged` case. -/
def read_loop (stream : List Nat) : ReadOutcome :=
  match stream with
  | [] => .diverged
  | byte :: rest =>
    if (rest.take 10)[0]? = some 0xC0 then
      .returned (process_frame (byte :: rest.take 10)) (rest.drop 10)
    else if byte = HEAD then
      .returned (.ok none) (rest.drop 10)
    else
      read_loop (rest.drop 10)
termination_by stream.length
decreasing_by
  simp only [List.length_drop, List.length_cons]
  omega

/-- `check_firmware_version(self)`:
```
...build and _execute FIRMWARE_VERSION_CMD...
raw = self._get_reply()
year = raw[2]
month = raw[3]
day = raw[4]
return f"{year}-{month}-{day}"
```
When `_get_reply` returns `None`, `raw[2]` raises
`TypeError: 'NoneType' object is not subscriptable`. The returned string is
modelled by the triple of its raw byte values. -/
def check_firmware_version (stream : List Nat) : Except PyErr (Nat × Nat × Nat) :=
  match get_reply stream with
  | .error e => .error e
  | .ok none => .error .typeError
  | .ok (some raw) =>
    match raw[2]?, raw[3]?, raw[4]? with
    | some y, some m, some d => .ok (y, m, d)
    | _, _, _ => .error .indexError

/-- Helper: `struct.unpack('B', raw[4:5])` succeeds and returns the byte at
offset 4 whenever that byte exists. -/
theorem unpackB_at_four (raw : List Nat) (b : Nat) (h : raw[4]? = some b) :
    unpackB ((raw.drop 4).take 1) = .ok b := by
  have h0 : (raw.drop 4)[0]? = some b := by
    rw [List.getElem?_drop]
    simpa using h
  cases hd : raw.drop 4 with
  | nil => rw [hd] at h0; simp at h0
  | cons x t =>
    rw [hd] at h0
    simp at h0
    subst h0
    rfl

/-- Helper: the only exception `_get_reply` can raise is the `IndexError`
from `raw[8]` on a 3-to-8-byte short read. -/
theorem get_reply_error_cases (stream : List Nat) (e : PyErr)
    (h : get_reply stream = .error e) : e = PyErr.indexError := by
  simp only [get_reply] at h
  by_cases h0 : (((stream.take 10).drop 2).take 6).length = 0
  · rw [if_pos h0] at h; cases h
  · rw [if_neg h0] at h
    cases h8 : (stream.take 10)[8]? with
    | none =>
      rw [h8] at h
      injection h with h
      exact h.symm
    | some b8 =>
      simp only [h8] at h
      by_cases hc : (((stream.take 10).drop 2).take 6).sum % 256 ≠ b8
      · rw [if_pos hc] at h; cases h
      · rw [if_neg hc] at h; cases h

/-- Helper: one unfolding step of the scanning loop of `read`. -/
theorem read_loop_cons (byte : Nat) (rest : List Nat) :
    read_loop (byte :: rest) =
      if (rest.take 10)[0]? = some 0xC0 then
        .returned (process_frame (byte :: rest.take 10)) (rest.drop 10)
      else if byte = HEAD then
        .returned (.ok none) (rest.drop 10)
      else
        read_loop (rest.drop 10) := by
  simp [read_loop]

/-- C1 (counterexample): the all-zero 10-byte buffer has a head byte of 0x00,
not 0xAA, yet its checksum is consistent (sum of bytes 2..7 is 0, matching
byte 8), and `_get_reply` accepts it: the head byte is never examined, so the
claim "every buffer whose head byte is not 0xAA is rejected" is false. -/
theorem C1_head_not_checked :
    get_reply [0, 0, 0, 0, 0, 0, 0, 0, 0, 0] =
      .ok (some [0, 0, 0, 0, 0, 0, 0, 0, 0, 0]) ∧ (0 : Nat) ≠ 0xAA :=
  ⟨rfl, by decide⟩

/-- C1 (amended): for every 10-byte reply buffer, `_get_reply`'s validation
returns the frame iff sum(bytes[2:8]) mod 256 equals bytes[8]; the head byte
is not examined, so buffers with a non-0xAA head but a valid checksum are
accepted. -/
theorem C1_validate_checksum_only (b0 b1 b2 b3 b4 b5 b6 b7 b8 b9 : Nat) :
    get_reply [b0, b1, b2, b3, b4, b5, b6, b7, b8, b9] =
        .ok (some [b0, b1, b2, b3, b4, b5, b6, b7, b8, b9]) ↔
      (b2 + b3 + b4 + b5 + b6 + b7) % 256 = b8 := by
  have hred : get_reply [b0, b1, b2, b3, b4, b5, b6, b7, b8, b9] =
      if (b2 + (b3 + (b4 + (b5 + (b6 + (b7 + 0)))))) % 256 ≠ b8 then .ok none
      else .ok (some [b0, b1, b2, b3, b4, b5, b6, b7, b8, b9]) := rfl
  rw [hred]
  by_cases hc : (b2 + (b3 + (b4 + (b5 + (b6 + (b7 + 0)))))) % 256 = b8
  · rw [if_neg (by omega)]
    constructor
    · intro _; omega
    · intro _; rfl
  · rw [if_pos (by omega)]
    constructor
    · intro h; cases h
    · intro h
      exact absurd
        (show (b2 + (b3 + (b4 + (b5 + (b6 + (b7 + 0)))))) % 256 = b8 by omega) hc

/-- C3: the code raises where the claim promises an absent-value result.
`check_firmware_version` with an absent reply (a 0-byte read) dereferences
`None` (`raw[2]`), a `TypeError`; `_get_reply` with a 5-byte short read
evaluates `raw[8]` out of range, an `IndexError`. -/
theorem C3_reply_handling_raises :
    check_firmware_version [] = .error .typeError ∧
    get_reply [1, 2, 3, 4, 5] = .error .indexError :=
  ⟨rfl, rfl⟩

/-- C4 (counterexample): on a transport that yields no data (every read
returns an empty buffer), the scanning loop of `read` repeats forever with no
progress instead of returning an absent value. -/
theorem C4_empty_stream_diverges : read_loop [] = .diverged := by
  simp [read_loop]

/-- C4 (amended): the scanning loop of `read` fails to terminate on any
stream that never presents an exit condition — in particular on a stream free
of 0xAA and 0xC0 bytes, and on an exhausted transport — rather than returning
an absent value; it returns only when a candidate window starts with 0xC0 or
a scanned byte equals 0xAA. -/
theorem C4_read_no_exit_diverges (stream : List Nat)
    (hA : (0xAA : Nat) ∉ stream) (hC : (0xC0 : Nat) ∉ stream) :
    read_loop stream = .diverged := by
  have main : ∀ n (s : List Nat), s.length ≤ n → (0xAA : Nat) ∉ s →
      (0xC0 : Nat) ∉ s → read_loop s = .diverged := by
    intro n
    induction n with
    | zero =>
      intro s hlen _ _
      have hs : s = [] := List.eq_nil_of_length_eq_zero (Nat.le_zero.mp hlen)
      subst hs
      simp [read_loop]
    | succ n ih =>
      intro s hlen hA2 hC2
      cases s with
      | nil => simp [read_loop]
      | cons byte rest =>
        have h1 : ¬ (rest.take 10)[0]? = some 0xC0 := fun hcand =>
          hC2 (List.mem_cons_of_mem _
            (List.mem_of_mem_take (List.getElem?_mem hcand)))
        have h2 : ¬ byte = HEAD := fun hbyte =>
          hA2 (by rw [hbyte]; exact List.mem_cons_self _ _)
        rw [read_loop_cons, if_neg h1, if_neg h2]
        apply ih
        · simp only [List.length_drop]
          simp only [List.length_cons] at hlen
          omega
        · exact fun hm => hA2 (List.mem_cons_of_mem _ (List.mem_of_mem_drop hm))
        · exact fun hm => hC2 (List.mem_cons_of_mem _ (List.mem_of_mem_drop hm))
  exact main stream.length stream le_rfl hA hC

/-- C4 (witness): a concrete stream with neither 0xAA nor 0xC0 makes the
scanning loop of `read` diverge. -/
theorem C4_read_no_exit_diverges_witness : read_loop [1, 2, 3] = .diverged :=
  C4_read_no_exit_diverges [1, 2, 3] (by decide) (by decide)

/-- C5 (counterexample): a `set_report_mode` call with `read=True` whose
reply is absent still overwrites the cached `use_query_mode` (here from
`True` to `False`), falsifying the claim that the cache is unchanged for
read calls and for absent replies. -/
theorem C5_cache_mutated_on_read_call :
    set_report_mode true false true [] = (.ok none, false) := rfl

/-- C5 (amended): `set_report_mode` sets the cached `use_query_mode` to the
`query` argument on every call, regardless of the `read` flag and of reply
validity; it returns the device-reported mode bit (the reply byte at offset
4) on a valid reply and an absent value on an absent/invalid reply. -/
theorem C5_report_mode_cache ( rd q cache : Bool) (stream : List Nat) :
    (set_report_mode rd q cache stream).2 = q ∧
    (get_reply stream = .ok none →
      (set_report_mode rd q cache stream).1 = .ok none) ∧
    (∀ raw b, get_reply stream = .ok (some raw) → raw[4]? = some b →
      (set_report_mode rd q cache stream).1 = .ok (some b)) := by
  refine ⟨rfl, ?_, ?_⟩
  · intro h
    simp only [set_report_mode, h]
  · intro raw b hgr hb
    simp only [set_report_mode, hgr, unpackB_at_four raw b hb]

/-- C5 (witness): with a prior cache of `True`, a read call with
`query=False` and an empty reply leaves the cache `False` and returns an
absent value; a write call with a valid reply whose byte 4 is 1 returns 1. -/
theorem C5_report_mode_cache_witness :
    (set_report_mode true false true []).2 = false ∧
    (set_report_mode true false true []).1 = .ok none ∧
    (set_report_mode false true true
      [0xAA, 0xC5, 2, 0, 1, 0, 0, 0, 3, 0xAB]).1 = .ok (some 1) := by
  refine ⟨(C5_report_mode_cache true false true []).1,
    (C5_report_mode_cache true false true []).2.1 rfl,
    (C5_report_mode_cache false true true _).2.2
      [0xAA, 0xC5, 2, 0, 1, 0, 0, 0, 3, 0xAB] 1 rfl rfl⟩

/-- C6: for every command id byte and 12-byte payload, the built command
buffer (`cmd_begin` + id + payload, finished by `_finish_cmd`) is exactly 19
bytes, ends in the tail byte 0xAB, and its checksum byte at offset 17 equals
the sum of the bytes at offsets 2 through 16 inclusive, mod 256. -/
theorem C6_build_cmd_shape (c p0 p1 p2 p3 p4 p5 p6 p7 p8 p9 p10 p11 : Nat) :
    (build_cmd c [p0, p1, p2, p3, p4, p5, p6, p7, p8, p9, p10, p11]).length = 19 ∧
    (build_cmd c [p0, p1, p2, p3, p4, p5, p6, p7, p8, p9, p10, p11]).getLast? =
      some 0xAB ∧
    (build_cmd c [p0, p1, p2, p3, p4, p5, p6, p7, p8, p9, p10, p11])[17]? =
      some ((((build_cmd c
        [p0, p1, p2, p3, p4, p5, p6, p7, p8, p9, p10, p11]).drop 2).take 15).sum
          % 256) :=
  ⟨rfl, rfl, rfl⟩

/-- C7: `set_work_period` fails fast with `AssertionError` for every
`work_time` outside 0..30 inclusive, and for every `work_time` in 0..30
inclusive it passes the assertion (never raising `AssertionError`) and builds
the 19-byte command it sends. -/
theorem C7_work_period_contract ( rd : Bool) (wt : Int) (stream : List Nat) :
    (¬ (0 ≤ wt ∧ wt ≤ 30) →
      set_work_period rd wt stream = .error .assertionError) ∧
    (0 ≤ wt ∧ wt ≤ 30 →
      set_work_period rd wt stream ≠ .error .assertionError ∧
      (set_work_period_cmd rd wt).length = 19) := by
  constructor
  · intro h
    unfold set_work_period
    rw [if_pos h]
  · intro h
    constructor
    · unfold set_work_period
      rw [if_neg (not_not_intro h)]
      cases hgr : get_reply stream with
      | error e =>
        intro hcontra
        injection hcontra with hcontra
        exact absurd (get_reply_error_cases stream e hgr) (by rw [hcontra]; decide)
      | ok o => intro hcontra; cases hcontra
    · cases rd <;> rfl

/-- C7 (witness): `work_time=35` raises the assertion; `work_time=30` and
`work_time=0` do not. -/
theorem C7_work_period_contract_witness :
    set_work_period false 35 [] = .error .assertionError ∧
    set_work_period false 30 [] ≠ .error .assertionError ∧
    set_work_period false 0 [] ≠ .error .assertionError ∧
    (set_work_period_cmd false 30).length = 19 :=
  ⟨(C7_work_period_contract false 35 []).1 (by decide),
    ((C7_work_period_contract false 30 []).2 (by decide)).1,
    ((C7_work_period_contract false 0 []).2 (by decide)).1,
    ((C7_work_period_contract false 30 []).2 (by decide)).2⟩

/-- C8: for every checksum-valid frame, both decode paths yield the
little-endian 16-bit fields divided by 10: the `query` path on the 10-byte
reply whose field0 is bytes 2,3 and field1 is bytes 4,5, and the
`_process_frame` path on the 11-byte scanned buffer (scanned byte plus
10-byte candidate) whose field0 is bytes 2,3 and field1 is bytes 4,5. -/
theorem C8_measurement_decode (h0 m f0lo f0hi f1lo f1hi i1 i2 ck t x : Nat)
    (hck : (f0lo + f0hi + f1lo + f1hi + i1 + i2) % 256 = ck) :
    query true [h0, m, f0lo, f0hi, f1lo, f1hi, i1, i2, ck, t] =
      .ok (some (((f0lo + 256 * f0hi : Nat) : ℚ) / 10,
        ((f1lo + 256 * f1hi : Nat) : ℚ) / 10)) ∧
    process_frame [h0, m, f0lo, f0hi, f1lo, f1hi, i1, i2, ck, t, x] =
      .ok (some (((f0lo + 256 * f0hi : Nat) : ℚ) / 10,
        ((f1lo + 256 * f1hi : Nat) : ℚ) / 10)) := by
  constructor
  · have hgr : get_reply [h0, m, f0lo, f0hi, f1lo, f1hi, i1, i2, ck, t] =
        .ok (some [h0, m, f0lo, f0hi, f1lo, f1hi, i1, i2, ck, t]) := by
      have hred : get_reply [h0, m, f0lo, f0hi, f1lo, f1hi, i1, i2, ck, t] =
          if (f0lo + (f0hi + (f1lo + (f1hi + (i1 + (i2 + 0)))))) % 256 ≠ ck
          then .ok none
          else .ok (some [h0, m, f0lo, f0hi, f1lo, f1hi, i1, i2, ck, t]) := rfl
      rw [hred, if_neg (by omega)]
    simp only [query, hgr]
    rfl
  · have hred2 : process_frame [h0, m, f0lo, f0hi, f1lo, f1hi, i1, i2, ck, t, x] =
        if (f0lo + (f0hi + (f1lo + (f1hi + (i1 + (i2 + 0)))))) % 256 ≠ ck
        then .ok none
        else .ok (some (((f0lo + 256 * f0hi : Nat) : ℚ) / 10,
          ((f1lo + 256 * f1hi : Nat) : ℚ) / 10)) := rfl
    rw [hred2, if_neg (by omega)]

/-- C8 (witness): the frame with field0 bytes FA 00 (250) and field1 bytes
C2 01 (450) and a correct checksum decodes to pm2_5 = 25.0 and pm10 = 45.0
on both paths. -/
theorem C8_measurement_decode_witness :
    query true [0xAA, 0xC0, 0xFA, 0, 0xC2, 1, 0, 0, 0xBD, 0xAB] =
      .ok (some (25, 45)) ∧
    process_frame [0xAA, 0xC0, 0xFA, 0, 0xC2, 1, 0, 0, 0xBD, 0xAB, 0] =
      .ok (some (25, 45)) := by
  have h := C8_measurement_decode 0xAA 0xC0 0xFA 0 0xC2 1 0 0 0xBD 0xAB 0
    (by decide)
  constructor
  · rw [h.1]; norm_num
  · rw [h.2]; norm_num

/-- C9: `sleep( read, sleep)` returns the byte at reply offset 4 (the device
work/sleep bit) when a valid reply is received, and returns 0 when the reply
is absent or checksum-invalid (`_get_reply` returned `None`). -/
theorem C9_sleep_reply ( rd slp : Bool) (stream : List Nat) :
    (get_reply stream = .ok none → sleep rd slp stream = .ok 0) ∧
    (∀ raw b, get_reply stream = .ok (some raw) → raw[4]? = some b →
      sleep rd slp stream = .ok b) := by
  constructor
  · intro h
    simp only [sleep, h]
  · intro raw b hgr hb
    simp only [sleep, hgr, unpackB_at_four raw b hb]

/-- C9 (witness): an absent reply yields 0; a checksum-valid reply with byte
4 equal to 1 yields 1. -/
theorem C9_sleep_reply_witness :
    sleep false true [] = .ok 0 ∧
    sleep false true [0xAA, 0xC5, 6, 0, 1, 0, 0, 0, 7, 0xAB] = .ok 1 :=
  ⟨(C9_sleep_reply false true []).1 rfl,
    (C9_sleep_reply false true _).2 [0xAA, 0xC5, 6, 0, 1, 0, 0, 0, 7, 0xAB] 1
      rfl rfl⟩

/-- C10: for every in-range `work_time`, whenever `_get_reply` completes
(valid reply, checksum-invalid reply, or absent reply alike),
`set_work_period` discards the result and returns `None` (modelled `.ok ()`):
the caller gets no success indication. -/
theorem C10_work_period_returns_none ( rd : Bool) (wt : Int) (stream : List Nat)
    (h : 0 ≤ wt ∧ wt ≤ 30) (o : Option (List Nat))
    (ho : get_reply stream = .ok o) :
    set_work_period rd wt stream = .ok () := by
  unfold set_work_period
  rw [if_neg (not_not_intro h), ho]

/-- C10 (witness): an in-range period with an absent reply returns `None`. -/
theorem C10_work_period_returns_none_witness :
    set_work_period false 5 [] = .ok () :=
  C10_work_period_returns_none false 5 [] (by decide) none rfl

/-- C2: evaluating the scanner at the failing input — one garbage byte 0x01
followed by a valid active frame (head 0xAA, marker 0xC0, fields 250/450,
correct checksum 0xBD) — the `read` loop does not return that frame's
measurement: because the 10-byte candidate is read unconditionally (there is
no `if byte == HEAD` guard), the first iteration consumes the garbage byte
plus the first 10 bytes of the frame as a failed candidate, and the loop then
spins forever on the exhausted transport. -/
theorem C2_resync_broken :
    read_loop [1, 0xAA, 0xC0, 0xFA, 0, 0xC2, 1, 0, 0, 0xBD, 0xAB, 0] =
      .diverged := by
  simp [read_loop, HEAD]
